import Mathlib

/-
  Verification of the mcbre-plugin-sdk specification against its source.

  The repository is a header-only C++ SDK (src/include/sdk/client_interface.hpp
  and src/include/sdk/sdk_interface.hpp).  Its concrete content is:
  a version record (ver_info / verion), a catalog of six event payload structs,
  an enum event_action, the pure-virtual interfaces sdk_intf and client_intf
  (whose method signatures are frozen ABI facts), a typed add_event_listener
  template helper, a typed query template helper, and the load_info handshake
  record.  We embed the declared signatures and type layouts as data
  (CppTy / MethodDecl / EventDecl), and the two inline template helpers as
  functions.  Behaviour that lives behind the pure-virtual methods (the host's
  registry bookkeeping, the event dispatcher, concrete query implementations,
  and the extension-side version gate) is not in the headers; those parts are
  modelled from the specification and are marked as such in their doc comments.
-/

namespace Sdk

/-- C++ types appearing in the SDK headers, embedded as a syntax of type tags.
`charConst` stands for `const char`, `sizeT` for `std::size_t`,
`uint64` for `std::uint64_t`; `ptr t` is `t *` and `fnPtr1 a r` is the
unary function-pointer type `r(*)(a)` (every callback type in the headers
is unary). -/
inductive CppTy where
  | void
  | bool
  | charConst
  | uint64
  | sizeT
  | pluginIntf
  | moduleIntf
  | clientIntf
  | managedString
  | eventActionTy
  | verInfoTy
  | eventChatSend
  | eventChatLog
  | eventPluginLoad
  | eventPluginUnload
  | eventModuleLoad
  | eventModuleUnload
  | ptr (t : CppTy)
  | fnPtr1 (param : CppTy) (ret : CppTy)
deriving DecidableEq, Repr

/-- Version record of the SDK, from `struct ver_info` in client_interface.hpp
(two C++ `int` fields). -/
structure ver_info where
  major : Int
  minor : Int
deriving DecidableEq, Repr

/-- The SDK's compiled-in version constant, from `inline const ver_info verion`
in client_interface.hpp: major 1 (breaking changes), minor 0 (additive
changes).  The misspelling `verion` is the source's own name. -/
def verion : ver_info := { major := 1, minor := 0 }

/-- Load-time handshake record, from `struct load_info` in
client_interface.hpp: the host's SDK version and a pointer to its
`client_intf` instance.  The pointer is embedded as a `Nat` address. -/
structure load_info where
  client_sdk_version : ver_info
  instance_ptr : Nat
deriving DecidableEq, Repr

/-- Modelled from the spec: the extension-side version gate is not in the SDK
headers (only `load_info` and `verion` are declared there).  Per the spec the
extension "must compare the major version field for exact equality before
storing or using the reference; on mismatch it must refuse to bind".  The
result is the retained registry reference, `none` meaning the reference is
never retained or used. -/
def extension_bind (rec : load_info) : Option Nat :=
  if rec.client_sdk_version.major = verion.major then some rec.instance_ptr
  else none

/-- Claim C1: the extension binds to (retains) the provided host registry
reference if and only if the handshake record's major version equals the
SDK's compiled-against major version, which is 1; on any major mismatch the
reference is never retained, and the minor version has no influence on the
binding decision. -/
theorem C1_version_gate (rec : load_info) :
    (extension_bind rec = some rec.instance_ptr ↔
      rec.client_sdk_version.major = 1) ∧
    (rec.client_sdk_version.major ≠ 1 → extension_bind rec = none) ∧
    (∀ m : Int,
      extension_bind
        { rec with client_sdk_version := { rec.client_sdk_version with minor := m } }
        = extension_bind rec) ∧
    verion.major = 1 := by
  refine ⟨?_, ?_, ?_, rfl⟩
  · unfold extension_bind verion
    constructor
    · intro h
      by_contra hne
      simp [hne] at h
    · intro h
      simp [h]
  · intro h
    unfold extension_bind verion
    simp [h]
  · intro m
    unfold extension_bind
    rfl

/-- Witness for C1: a handshake with major 1 and minor 5 binds (minor
difference ignored), and a handshake with major 2 does not retain the
reference. -/
theorem C1_version_gate_witness :
    extension_bind { client_sdk_version := { major := 1, minor := 5 }, instance_ptr := 42 }
      = some 42 ∧
    extension_bind { client_sdk_version := { major := 2, minor := 0 }, instance_ptr := 42 }
      = none := by
  constructor
  · exact (C1_version_gate
      { client_sdk_version := { major := 1, minor := 5 }, instance_ptr := 42 }).1.mpr rfl
  · exact (C1_version_gate
      { client_sdk_version := { major := 2, minor := 0 }, instance_ptr := 42 }).2.1 (by decide)

/-- Event interception action, from `enum class event_action : std::uint32_t`
in client_interface.hpp. -/
inductive event_action where
  | NOTHING
  | CANCEL
  | COMMIT
deriving DecidableEq, Repr

/-- Underlying `std::uint32_t` value of each enumerator, from the source:
NOTHING = 0, CANCEL = 1, COMMIT = 2. -/
def event_action.val : event_action → Nat
  | .NOTHING => 0
  | .CANCEL => 1
  | .COMMIT => 2

/-- Declaration of one event payload struct from client_interface.hpp:
its own type tag, its `EVENT_ID` string constant, its `fn_t` callback type,
and its data members in declaration order (name, type). -/
structure EventDecl where
  tag : CppTy
  EVENT_ID : String
  fn_t : CppTy
  fields : List (String × CppTy)
deriving DecidableEq, Repr

/-- From `struct event_chat_send` (client_interface.hpp lines 40 to 46). -/
def event_chat_send : EventDecl :=
  { tag := CppTy.eventChatSend
  , EVENT_ID := "evn_chat_send"
  , fn_t := CppTy.fnPtr1 (CppTy.ptr CppTy.eventChatSend) CppTy.void
  , fields :=
      [ ("action", CppTy.eventActionTy)
      , ("message", CppTy.ptr CppTy.managedString) ] }

/-- From `struct event_chat_log` (client_interface.hpp lines 54 to 63). -/
def event_chat_log : EventDecl :=
  { tag := CppTy.eventChatLog
  , EVENT_ID := "evn_chat_log"
  , fn_t := CppTy.fnPtr1 (CppTy.ptr CppTy.eventChatLog) CppTy.void
  , fields :=
      [ ("action", CppTy.eventActionTy)
      , ("message", CppTy.ptr CppTy.charConst)
      , ("sender_name", CppTy.ptr CppTy.charConst)
      , ("context", CppTy.ptr CppTy.charConst)
      , ("display_text", CppTy.ptr CppTy.managedString) ] }

/-- From `struct event_plugin_load` (client_interface.hpp lines 71 to 76). -/
def event_plugin_load : EventDecl :=
  { tag := CppTy.eventPluginLoad
  , EVENT_ID := "evn_plug_loaded"
  , fn_t := CppTy.fnPtr1 (CppTy.ptr CppTy.eventPluginLoad) CppTy.void
  , fields := [ ("instance", CppTy.ptr CppTy.pluginIntf) ] }

/-- From `struct event_plugin_unload` (client_interface.hpp lines 84 to 89). -/
def event_plugin_unload : EventDecl :=
  { tag := CppTy.eventPluginUnload
  , EVENT_ID := "evn_plug_unload"
  , fn_t := CppTy.fnPtr1 (CppTy.ptr CppTy.eventPluginUnload) CppTy.void
  , fields := [ ("instance", CppTy.ptr CppTy.pluginIntf) ] }

/-- From `struct event_module_load` (client_interface.hpp lines 97 to 102).
Note the source declares the member as `sdk::plugin_intf * instance`. -/
def event_module_load : EventDecl :=
  { tag := CppTy.eventModuleLoad
  , EVENT_ID := "evn_mod_loaded"
  , fn_t := CppTy.fnPtr1 (CppTy.ptr CppTy.eventModuleLoad) CppTy.void
  , fields := [ ("instance", CppTy.ptr CppTy.pluginIntf) ] }

/-- From `struct event_module_unload` (client_interface.hpp lines 110 to 115).
Note the source declares the member as `sdk::plugin_intf * instance`. -/
def event_module_unload : EventDecl :=
  { tag := CppTy.eventModuleUnload
  , EVENT_ID := "evn_mod_unload"
  , fn_t := CppTy.fnPtr1 (CppTy.ptr CppTy.eventModuleUnload) CppTy.void
  , fields := [ ("instance", CppTy.ptr CppTy.pluginIntf) ] }

/-- The complete event catalog of client_interface.hpp, in declaration
order: the section between the EVENTS markers contains exactly these six
structs. -/
def event_catalog : List EventDecl :=
  [ event_chat_send, event_chat_log, event_plugin_load, event_plugin_unload
  , event_module_load, event_module_unload ]

/-- A virtual method declaration of an interface class, embedded as
(name, parameter types in order, return type). -/
structure MethodDecl where
  name : String
  params : List CppTy
  ret : CppTy
deriving DecidableEq, Repr

/-- From `virtual auto register_plugin(plugin_intf * instance) -> bool`
(client_interface.hpp line 135). -/
def register_plugin_decl : MethodDecl :=
  { name := "register_plugin"
  , params := [CppTy.ptr CppTy.pluginIntf]
  , ret := CppTy.bool }

/-- From `virtual auto unregister_plugin(plugin_intf * instance) -> bool`
(client_interface.hpp line 143). -/
def unregister_plugin_decl : MethodDecl :=
  { name := "unregister_plugin"
  , params := [CppTy.ptr CppTy.pluginIntf]
  , ret := CppTy.bool }

/-- From `virtual auto register_module(plugin_intf * parent, module_intf * instance) -> bool`
(client_interface.hpp line 152). -/
def register_module_decl : MethodDecl :=
  { name := "register_module"
  , params := [CppTy.ptr CppTy.pluginIntf, CppTy.ptr CppTy.moduleIntf]
  , ret := CppTy.bool }

/-- From `virtual auto unregister_module(module_intf * instance) -> bool`
(client_interface.hpp line 160). -/
def unregister_module_decl : MethodDecl :=
  { name := "unregister_module"
  , params := [CppTy.ptr CppTy.moduleIntf]
  , ret := CppTy.bool }

/-- From `virtual auto enumerate_plugins(plugin_intf * out, std::size_t * count) -> bool`
(client_interface.hpp line 169). -/
def enumerate_plugins_decl : MethodDecl :=
  { name := "enumerate_plugins"
  , params := [CppTy.ptr CppTy.pluginIntf, CppTy.ptr CppTy.sizeT]
  , ret := CppTy.bool }

/-- From `virtual auto enumerate_modules(module_intf * out, std::size_t * count) -> bool`
(client_interface.hpp line 178). -/
def enumerate_modules_decl : MethodDecl :=
  { name := "enumerate_modules"
  , params := [CppTy.ptr CppTy.moduleIntf, CppTy.ptr CppTy.sizeT]
  , ret := CppTy.bool }

/-- From `virtual auto add_event_listener(const char * ename, void * fnp) -> bool`
(client_interface.hpp line 183), the untyped registration entry point. -/
def add_event_listener_decl : MethodDecl :=
  { name := "add_event_listener"
  , params := [CppTy.ptr CppTy.charConst, CppTy.ptr CppTy.void]
  , ret := CppTy.bool }

/-- From `virtual auto remove_event_listener(void * fnp) -> bool`
(client_interface.hpp line 188): removal takes only the callback pointer. -/
def remove_event_listener_decl : MethodDecl :=
  { name := "remove_event_listener"
  , params := [CppTy.ptr CppTy.void]
  , ret := CppTy.bool }

/-- The virtual methods `class client_intf` declares beyond those inherited
from `sdk_intf`, in declaration order (client_interface.hpp lines 135 to
204; queue_log_chat, get_mcstr and set_mcstr included for completeness). -/
def client_intf_methods : List MethodDecl :=
  [ register_plugin_decl, unregister_plugin_decl
  , register_module_decl, unregister_module_decl
  , enumerate_plugins_decl, enumerate_modules_decl
  , add_event_listener_decl, remove_event_listener_decl
  , { name := "queue_log_chat", params := [CppTy.ptr CppTy.charConst], ret := CppTy.bool }
  , { name := "get_mcstr", params := [CppTy.ptr CppTy.managedString], ret := CppTy.ptr CppTy.charConst }
  , { name := "set_mcstr", params := [CppTy.ptr CppTy.managedString, CppTy.ptr CppTy.charConst]
    , ret := CppTy.ptr CppTy.managedString } ]

/-- Claim C8: the event catalog consists of exactly six string-identified
events with pairwise distinct ids, each with a single callback signature
taking a pointer to its own payload; chat-send and chat-log carry an
`action` field and a mutable `managed_string` override slot (`message` and
`display_text` respectively), while the four lifecycle payloads carry no
`action` field. -/
theorem C8_event_catalog :
    event_catalog.length = 6 ∧
    event_catalog.map EventDecl.EVENT_ID =
      [ "evn_chat_send", "evn_chat_log", "evn_plug_loaded", "evn_plug_unload"
      , "evn_mod_loaded", "evn_mod_unload" ] ∧
    (event_catalog.map EventDecl.EVENT_ID).Nodup ∧
    (∀ E ∈ event_catalog, E.fn_t = CppTy.fnPtr1 (CppTy.ptr E.tag) CppTy.void) ∧
    ("action", CppTy.eventActionTy) ∈ event_chat_send.fields ∧
    ("message", CppTy.ptr CppTy.managedString) ∈ event_chat_send.fields ∧
    ("action", CppTy.eventActionTy) ∈ event_chat_log.fields ∧
    ("display_text", CppTy.ptr CppTy.managedString) ∈ event_chat_log.fields ∧
    (∀ E ∈ [event_plugin_load, event_plugin_unload, event_module_load, event_module_unload],
      ∀ f ∈ E.fields, f.1 ≠ "action") := by
  decide

/-- Claim C10: the module lifecycle payloads expose the registered entity
through an `instance` member of plugin-interface pointer type
(`sdk::plugin_intf *`), not module-interface pointer type, even though
`register_module` and `unregister_module` take the entity as a
`module_intf *`. -/
theorem C10_module_event_field_type :
    event_module_load.fields = [("instance", CppTy.ptr CppTy.pluginIntf)] ∧
    event_module_unload.fields = [("instance", CppTy.ptr CppTy.pluginIntf)] ∧
    ("instance", CppTy.ptr CppTy.moduleIntf) ∉ event_module_load.fields ∧
    ("instance", CppTy.ptr CppTy.moduleIntf) ∉ event_module_unload.fields ∧
    register_module_decl.params = [CppTy.ptr CppTy.pluginIntf, CppTy.ptr CppTy.moduleIntf] ∧
    unregister_module_decl.params = [CppTy.ptr CppTy.moduleIntf] := by
  decide

/-- The base capability interface, from `class sdk_intf` in
sdk_interface.hpp.  Its one virtual method
`query(const char * id, void * ptr, std::uint64_t size) -> bool` is pure
virtual and user implemented, so an instance is embedded as the function
its implementer supplies; pointers are `Nat` addresses. -/
structure sdk_intf where
  query : String → Nat → Nat → Bool

/-- The typed convenience overload, from the template
`auto query(const char * id, T * ptr) -> bool` in sdk_interface.hpp
(lines 25 to 28): its body is `return this->query(id, ptr, sizeof(T));`.
`sizeof_T` stands for the statically inferred `sizeof(T)` of the output
variable's type at the call site. -/
def sdk_intf.query_typed (self : sdk_intf) (sizeof_T : Nat) (id : String) (p : Nat) : Bool :=
  self.query id p sizeof_T

/-- Claim C4: for every interface instance, every type (represented by its
size), every id and every output pointer, the typed convenience form of
`query` returns exactly the value of the untyped form called with the same
id and pointer and with the statically inferred size as third argument. -/
theorem C4_typed_query_forwards (self : sdk_intf) (sizeof_T : Nat) (id : String) (p : Nat) :
    sdk_intf.query_typed self sizeof_T id p = self.query id p sizeof_T := rfl

/-- Modelled from the spec: `query` is pure virtual and "user implemented"
(sdk_interface.hpp comment); no concrete implementation exists in the
headers.  Per the spec a concrete implementation is characterised by the
set of ids it recognises and by what it does on recognised ids; `M` is the
type of the memory the output slot lives in. -/
structure query_impl (M : Type) where
  recognized : String → Bool
  respond : String → Nat → Nat → M → Bool × M

/-- Modelled from the spec: running a conforming `query` implementation.
"An unrecognized id returns failure and must not touch out_slot": on an id
the implementation does not recognise, the result is `false` and the memory
is returned unchanged; only on recognised ids does the implementation's own
responder run. -/
def query_run {M : Type} (impl : query_impl M) (id : String) (ptr sz : Nat) (m : M) : Bool × M :=
  if impl.recognized id then impl.respond id ptr sz m else (false, m)

/-- Claim C5: for every id not recognised by a concrete query
implementation, and every output pointer, size and memory state,
`query` returns failure and leaves the memory unchanged. -/
theorem C5_unrecognized_query {M : Type} (impl : query_impl M) (id : String)
    (ptr sz : Nat) (m : M) (h : impl.recognized id = false) :
    query_run impl id ptr sz m = (false, m) := by
  unfold query_run
  simp [h]

/-- Witness for C5: an implementation recognising only the id "reg_cb",
queried with an unrecognised id over a one-cell memory holding 99, fails
and leaves the cell at 99. -/
theorem C5_unrecognized_query_witness :
    query_run
      { recognized := fun id => id == "reg_cb"
      , respond := fun _ _ _ _ => (true, 0) }
      "unrecognized_id" 4 8 99 = (false, 99) :=
  C5_unrecognized_query
    { recognized := fun id => id == "reg_cb"
    , respond := fun _ _ _ _ => (true, 0) }
    "unrecognized_id" 4 8 99 (by decide)

/-- A candidate template argument for the typed `add_event_listener`
helper: a C++ type with its tag, an optional `EVENT_ID` static member and
an optional `fn_t` member type (absent members model types for which the
`requires` static assertions fail). -/
structure TypeDecl where
  tag : CppTy
  event_id : Option String
  fn_t : Option CppTy
deriving DecidableEq, Repr

/-- The view of an event payload struct as a template argument: each of the
six catalog structs declares both `EVENT_ID` and `fn_t`. -/
def EventDecl.asType (E : EventDecl) : TypeDecl :=
  { tag := E.tag, event_id := some E.EVENT_ID, fn_t := some E.fn_t }

/-- From the template helper `add_event_listener(void(*fn)(T *)) -> bool`
(client_interface.hpp lines 214 to 220).  The parameter's type is
`void(*)(T*)` by the template signature, so a call binds only with a
callback of exactly that type.  The three `static_assert`s require that `T`
provide `EVENT_ID`, that `T` provide `fn_t`, and that `T::fn_t` be the same
type as `decltype(fn)`, i.e. `void(*)(T*)`; a failed assertion rejects the
call at compile time (`none`).  On success the body forwards to the untyped
registration: `return this->add_event_listener(T::EVENT_ID, fn);`, so the
result is the (event id, callback pointer) pair handed to the registry. -/
def add_event_listener_typed (T : TypeDecl) (fnp : Nat) : Option (String × Nat) :=
  match T.event_id, T.fn_t with
  | some eid, some ft =>
      if ft = CppTy.fnPtr1 (CppTy.ptr T.tag) CppTy.void then some (eid, fnp)
      else none
  | some _, none => none
  | none, _ => none

/-- Claim C6: the typed helper accepts a callback exactly when `T` declares
an `EVENT_ID` and an `fn_t` and the callback's type `void(*)(T*)` is
exactly `T::fn_t`; every accepted callback is registered, unchanged, under
`T::EVENT_ID`; and for each payload struct of the catalog the helper
registers a matching callback under that struct's own event id, whose bound
callback signature is exactly the accepted callback's type, so an accepted
listener is never registered under an event id whose payload type
mismatches its signature. -/
theorem C6_typed_listener_registration :
    (∀ (T : TypeDecl) (fnp : Nat),
      (add_event_listener_typed T fnp).isSome ↔
        T.event_id.isSome ∧ T.fn_t = some (CppTy.fnPtr1 (CppTy.ptr T.tag) CppTy.void)) ∧
    (∀ (T : TypeDecl) (fnp q : Nat) (eid : String),
      add_event_listener_typed T fnp = some (eid, q) →
        T.event_id = some eid ∧ q = fnp) ∧
    (∀ E ∈ event_catalog, ∀ fnp : Nat,
      add_event_listener_typed E.asType fnp = some (E.EVENT_ID, fnp) ∧
      E.fn_t = CppTy.fnPtr1 (CppTy.ptr E.asType.tag) CppTy.void) := by
  refine ⟨?_, ?_, ?_⟩
  · intro T fnp
    obtain ⟨tg, eo, fo⟩ := T
    cases eo with
    | none => cases fo <;> simp [add_event_listener_typed]
    | some eid =>
      cases fo with
      | none => simp [add_event_listener_typed]
      | some ft =>
        by_cases hft : ft = CppTy.fnPtr1 (CppTy.ptr tg) CppTy.void <;>
          simp [add_event_listener_typed, hft]
  · intro T fnp q eid h
    obtain ⟨tg, eo, fo⟩ := T
    cases eo with
    | none => cases fo <;> simp [add_event_listener_typed] at h
    | some eid0 =>
      cases fo with
      | none => simp [add_event_listener_typed] at h
      | some ft =>
        by_cases hft : ft = CppTy.fnPtr1 (CppTy.ptr tg) CppTy.void
        · simp [add_event_listener_typed, hft] at h
          exact ⟨by rw [h.1], h.2.symm⟩
        · simp [add_event_listener_typed, hft] at h
  · intro E hE fnp
    fin_cases hE <;> exact ⟨rfl, rfl⟩

/-- Witness for C6: a callback of type `void(*)(event_chat_send*)` at
address 12 is accepted for `T = event_chat_send` and registered under
"evn_chat_send" unchanged; the theorem's second clause applied to the
concrete acceptance recovers the id and the callback. -/
theorem C6_typed_listener_registration_witness :
    add_event_listener_typed event_chat_send.asType 12 = some ("evn_chat_send", 12) ∧
    event_chat_send.asType.event_id = some "evn_chat_send" :=
  ⟨(C6_typed_listener_registration.2.2 event_chat_send (by decide) 12).1,
   (C6_typed_listener_registration.2.1 event_chat_send.asType 12 12 "evn_chat_send"
     (C6_typed_listener_registration.2.2 event_chat_send (by decide) 12).1).1⟩

/-- Result of one event dispatch: the final payload state, whether the
event's side effect proceeds (the event "reaches the game"), and how many
listeners were invoked. -/
structure dispatch_result (P : Type) where
  payload : P
  reaches_game : Bool
  invoked : Nat
deriving DecidableEq, Repr

/-- Modelled from the spec: the host-side dispatcher is not in the SDK
headers (only `enum event_action` is).  Per the spec, dispatch visits the
listeners registered for the event id in registration order (the list
order), invokes each with a reference to the payload (state threading), and
after each invocation inspects the payload's `action`: NOTHING continues to
the next listener (the event reaches the game if the chain is exhausted),
CANCEL stops immediately with the side effect suppressed, COMMIT stops
immediately with the side effect proceeding and the remaining listeners
skipped. -/
def dispatch_from {P : Type} (action_of : P → event_action) :
    List (P → P) → P → dispatch_result P
  | [], p => { payload := p, reaches_game := true, invoked := 0 }
  | f :: fs, p =>
    match action_of (f p) with
    | .NOTHING =>
      let r := dispatch_from action_of fs (f p)
      { payload := r.payload, reaches_game := r.reaches_game, invoked := r.invoked + 1 }
    | .CANCEL => { payload := f p, reaches_game := false, invoked := 1 }
    | .COMMIT => { payload := f p, reaches_game := true, invoked := 1 }

/-- A runtime value of `struct event_chat_send` (client_interface.hpp lines
40 to 46): its `action` field and its `managed_string * message` pointer as
a `Nat` address. -/
structure event_chat_send_val where
  action : event_action
  message : Nat
deriving DecidableEq, Repr

/-- Claim C2: dispatch invokes listeners in registration order passing each
the (threaded) payload, and after each invocation inspects the action:
NOTHING recurses on the remaining listeners (one more invocation counted),
CANCEL stops immediately with the side effect suppressed, COMMIT stops
immediately with the side effect proceeding; in particular for chat-send
with L1 setting NOTHING, L2 setting CANCEL and any L3 registered in that
order, exactly the first two listeners are invoked — L3 never runs — and
the message does not reach the downstream sink. -/
theorem C2_dispatch_order_and_cancel :
    (∀ (P : Type) (action_of : P → event_action) (f : P → P) (fs : List (P → P)) (p : P),
      (action_of (f p) = event_action.NOTHING →
        dispatch_from action_of (f :: fs) p =
          { payload := (dispatch_from action_of fs (f p)).payload
          , reaches_game := (dispatch_from action_of fs (f p)).reaches_game
          , invoked := (dispatch_from action_of fs (f p)).invoked + 1 }) ∧
      (action_of (f p) = event_action.CANCEL →
        dispatch_from action_of (f :: fs) p =
          { payload := f p, reaches_game := false, invoked := 1 }) ∧
      (action_of (f p) = event_action.COMMIT →
        dispatch_from action_of (f :: fs) p =
          { payload := f p, reaches_game := true, invoked := 1 })) ∧
    (∀ (L3 : event_chat_send_val → event_chat_send_val) (p : event_chat_send_val),
      (dispatch_from event_chat_send_val.action
        [ fun q => { action := event_action.NOTHING, message := q.message }
        , fun q => { action := event_action.CANCEL, message := q.message }
        , L3 ] p).invoked = 2 ∧
      (dispatch_from event_chat_send_val.action
        [ fun q => { action := event_action.NOTHING, message := q.message }
        , fun q => { action := event_action.CANCEL, message := q.message }
        , L3 ] p).reaches_game = false) := by
  constructor
  · intro P action_of f fs p
    refine ⟨?_, ?_, ?_⟩ <;> intro h <;> simp [dispatch_from, h]
  · intro L3 p
    constructor <;> rfl

/-- Witness for C2: with a single listener setting CANCEL on a concrete
payload, the step clause of the theorem yields suppression after one
invocation, and the chat-send scenario clause at the identity L3 and a
concrete payload yields two invocations without reaching the game. -/
theorem C2_dispatch_order_and_cancel_witness :
    dispatch_from event_chat_send_val.action
      [fun q => { action := event_action.CANCEL, message := q.message }]
      { action := event_action.NOTHING, message := 3 } =
      { payload := { action := event_action.CANCEL, message := 3 }
      , reaches_game := false, invoked := 1 } ∧
    (dispatch_from event_chat_send_val.action
      [ fun q => { action := event_action.NOTHING, message := q.message }
      , fun q => { action := event_action.CANCEL, message := q.message }
      , id ] { action := event_action.NOTHING, message := 3 }).reaches_game = false :=
  ⟨(C2_dispatch_order_and_cancel.1 event_chat_send_val event_chat_send_val.action
      (fun q => { action := event_action.CANCEL, message := q.message }) []
      { action := event_action.NOTHING, message := 3 }).2.1 rfl,
   (C2_dispatch_order_and_cancel.2 id { action := event_action.NOTHING, message := 3 }).2⟩

/-- Modelled from the spec: the host's plugin registry bookkeeping behind
the pure-virtual `register_plugin` — the headers declare only the
signature.  The state is the list of registered plugin instance pointers in
registration order.  Per the spec, registration "fails on duplicate
instance identity" and otherwise appends the instance. -/
def register_plugin_model (st : List Nat) (inst : Nat) : Bool × List Nat :=
  if st.contains inst then (false, st) else (true, st ++ [inst])

/-- Modelled from the spec: bookkeeping behind the pure-virtual
`unregister_plugin`: it "fails if not currently registered" and otherwise
removes the instance's entry from the bookkeeping. -/
def unregister_plugin_model (st : List Nat) (inst : Nat) : Bool × List Nat :=
  if st.contains inst then (true, st.filter (fun e => !(e == inst))) else (false, st)

/-- Modelled from the spec: the count `enumerate_plugins` reports when
called with a null `out` — the number of currently registered plugins. -/
def enumerate_plugins_count (st : List Nat) : Nat := st.length

/-- Claim C3 counterexample: the claim says `register_plugin` takes both a
plugin instance and a display name, but the declaration in
client_interface.hpp line 135 has exactly one parameter, the
`plugin_intf *` instance; no string (display name) parameter exists. -/
theorem C3_counterexample_no_name_param :
    register_plugin_decl ∈ client_intf_methods ∧
    register_plugin_decl.params = [CppTy.ptr CppTy.pluginIntf] ∧
    register_plugin_decl.params.length = 1 ∧
    CppTy.ptr CppTy.charConst ∉ register_plugin_decl.params := by
  decide

/-- Claim C3 as amended: `register_plugin` takes only a plugin instance (no
display name) and returns a boolean; registration fails, leaving the
registry unchanged, when the instance identity is already registered. -/
theorem C3_register_plugin (st : List Nat) (inst : Nat)
    (h : st.contains inst = true) :
    register_plugin_decl.params = [CppTy.ptr CppTy.pluginIntf] ∧
    register_plugin_decl.ret = CppTy.bool ∧
    register_plugin_model st inst = (false, st) := by
  refine ⟨rfl, rfl, ?_⟩
  unfold register_plugin_model
  have h' : inst ∈ st := by simpa using h
  simp [h']

/-- Witness for C3: registering instance 7 while 7 is already registered
fails and leaves the registry as it was. -/
theorem C3_register_plugin_witness :
    [5, 7].contains 7 = true ∧ register_plugin_model [5, 7] 7 = (false, [5, 7]) :=
  ⟨by decide, (C3_register_plugin [5, 7] 7 (by decide)).2.2⟩

/-- Modelled from the spec: the listener table behind the pure-virtual
`remove_event_listener` — a list of (event id, callback pointer)
registrations.  Per the spec, removal is keyed by callback identity alone
("removes registrations of callback"), so every registration whose
callback pointer equals the argument is removed, whatever its event id. -/
def remove_event_listener_model (tbl : List (String × Nat)) (fnp : Nat) :
    List (String × Nat) :=
  tbl.filter (fun e => !(e.2 == fnp))

/-- Claim C7: `remove_event_listener` is keyed by callback identity alone —
its declaration takes exactly one parameter, the `void *` callback pointer,
with no event-id parameter — and removal removes the callback's
registrations under every event id while leaving other callbacks'
registrations in place, so one removal call cannot discriminate between
the event ids a callback is registered under. -/
theorem C7_remove_by_callback_identity (tbl : List (String × Nat)) (fnp : Nat)
    (eid : String) :
    remove_event_listener_decl.params = [CppTy.ptr CppTy.void] ∧
    remove_event_listener_decl.params.length = 1 ∧
    CppTy.ptr CppTy.charConst ∉ remove_event_listener_decl.params ∧
    (eid, fnp) ∉ remove_event_listener_model tbl fnp ∧
    (∀ e ∈ tbl, e.2 ≠ fnp → e ∈ remove_event_listener_model tbl fnp) := by
  refine ⟨rfl, rfl, by decide, ?_, ?_⟩
  · intro hmem
    have := List.of_mem_filter hmem
    simp at this
  · intro e he hne
    refine List.mem_filter.mpr ⟨he, ?_⟩
    simp [hne]

/-- Witness for C7: callback 9 registered under both chat events is removed
from both by one call, while callback 4's registration survives. -/
theorem C7_remove_by_callback_identity_witness :
    ("evn_chat_send", 9) ∉
      remove_event_listener_model
        [("evn_chat_send", 9), ("evn_chat_log", 9), ("evn_chat_log", 4)] 9 ∧
    ("evn_chat_log", 4) ∈
      remove_event_listener_model
        [("evn_chat_send", 9), ("evn_chat_log", 9), ("evn_chat_log", 4)] 9 :=
  ⟨(C7_remove_by_callback_identity
      [("evn_chat_send", 9), ("evn_chat_log", 9), ("evn_chat_log", 4)] 9
      "evn_chat_send").2.2.2.1,
   (C7_remove_by_callback_identity
      [("evn_chat_send", 9), ("evn_chat_log", 9), ("evn_chat_log", 4)] 9
      "evn_chat_send").2.2.2.2 ("evn_chat_log", 4) (by decide) (by decide)⟩

/-- Filtering away an element that is not in the list changes nothing. -/
theorem filter_out_absent (st : List Nat) (inst : Nat)
    (h : st.contains inst = false) :
    st.filter (fun e => !(e == inst)) = st := by
  induction st with
  | nil => rfl
  | cons a t ih =>
    simp only [List.contains_cons, Bool.or_eq_false_iff] at h
    have ha : (a == inst) = false := by
      cases hb : (inst == a) <;> simp_all [BEq.comm]
    simp [List.filter, ha, ih h.2]

/-- Claim C9: for a valid instance (not currently registered), registering
it and then unregistering it succeeds both times and leaves the plugin
count reported by `enumerate_plugins` equal to its value before the pair of
calls. -/
theorem C9_register_unregister_count (st : List Nat) (inst : Nat)
    (h : st.contains inst = false) :
    (register_plugin_model st inst).1 = true ∧
    (unregister_plugin_model (register_plugin_model st inst).2 inst).1 = true ∧
    enumerate_plugins_count
        (unregister_plugin_model (register_plugin_model st inst).2 inst).2
      = enumerate_plugins_count st := by
  have h' : inst ∉ st := by simpa using h
  have hreg : register_plugin_model st inst = (true, st ++ [inst]) := by
    unfold register_plugin_model
    simp [h']
  have hmem : (st ++ [inst]).contains inst = true := by
    simp
  have hfil : (st ++ [inst]).filter (fun e => !(e == inst)) = st := by
    rw [List.filter_append, filter_out_absent st inst h]
    simp [List.filter]
  refine ⟨by rw [hreg], ?_, ?_⟩
  · rw [hreg]
    unfold unregister_plugin_model
    simp [hmem]
  · rw [hreg]
    unfold unregister_plugin_model
    simp only [hmem, if_true]
    rw [hfil]

/-- Witness for C9: with plugins 1 and 2 registered, registering the fresh
instance 3 and unregistering it again reports success twice and returns the
count to 2. -/
theorem C9_register_unregister_count_witness :
    [1, 2].contains 3 = false ∧
    enumerate_plugins_count
        (unregister_plugin_model (register_plugin_model [1, 2] 3).2 3).2
      = enumerate_plugins_count [1, 2] :=
  ⟨by decide, (C9_register_unregister_count [1, 2] 3 (by decide)).2.2⟩

end Sdk
